import Mathlib

/-!
Shallow embedding of the core of `trading_volatility.py` (class TradingVolatility)
and `perf_measure.py` (class PerformanceMetrics).

Conventions of the embedding:
* Prices are rationals (`ℚ`); the Python code uses floats but every formula in
  scope is exact arithmetic (sums, products, `math.floor(x*100)/100`).
* A pandas cell that may be `NaN` (an undefined price, or an unused signal
  cell) is an `Option ℚ`, with `none` playing the role of `NaN`.  The one float
  comparison the code performs on a possibly-`NaN` value is `basis < 0`, and in
  Python `NaN < 0` is `False`; `negBasis` reproduces exactly that.
* Asset identity strings produced by `__extract_asset_name` (the regex that
  strips the `_sell_signal` / `_buy_signal` suffix from a signal-column name)
  are modelled by the enumeration `AssetId`, one value per distinct string the
  three strategies can produce.
-/

/-- Asset-identity values produced by `__extract_asset_name` from the signal
column names of the three strategies (e.g. `longVix` stands for the lowercased
long-VIX ticker, `hedge75` for `"{hedge_asset}_75"`). -/
inductive AssetId where
  | longVix
  | shortVix
  | longHedge
  | shortHedge
  | longVix25
  | hedge75
  | hedge100
  deriving DecidableEq

/-- `__daily_basis` row formula: `(x[0] / x[1]) - 1` for defined prices. -/
def dailyBasis (f s : ℚ) : ℚ := f / s - 1

/-- The `basis` column cell for one date: `NaN` (here `none`) propagates when
either the future-like or the spot-like price is undefined. -/
def basisCell : Option ℚ → Option ℚ → Option ℚ
  | some f, some s => some (dailyBasis f s)
  | _, _ => none

/-- The branch test `df["basis"][index] < 0`.  In Python `NaN < 0` is `False`,
so an undefined basis selects the non-negative (Contango) branch. -/
def negBasis : Option ℚ → Bool
  | some b => decide (b < 0)
  | none => false

/-- One date of input data for the Rotate-2 (`__lsv_signals`) generator: the two
index open prices feeding the basis, and the two tradable assets' open prices. -/
structure Day where
  future : Option ℚ
  spot : Option ℚ
  longOpen : ℚ
  shortOpen : ℚ
  deriving DecidableEq

/-- The `basis` column of `__daily_basis` over a whole date range (the
`.apply(lambda x: (x[0] / x[1]) - 1, axis=1)` pass). -/
def basisCol (ds : List Day) : List (Option ℚ) :=
  ds.map fun d => basisCell d.future d.spot

/-- The per-date regime decision series: `true` = Backwardation (`basis < 0`),
`false` = Contango, exactly the branch taken at `df["basis"][index] < 0`. -/
def regimeCol (ds : List Day) : List Bool :=
  (basisCol ds).map negBasis

/-- The `positions` dictionary of `__lsv_signals`. -/
structure LsvPositions where
  long_vix : Bool
  short_vix : Bool
  deriving DecidableEq

/-- Initial `positions` state: `{"long_vix_asset": False, "short_vix_asset": False}`. -/
def lsvInit : LsvPositions := ⟨false, false⟩

/-- One row of the `__lsv_signals` output frame, in the column order the code
builds (`sell` signals before `buy` signals, long asset before short asset);
`none` is the `NaN` a cell keeps when unused on that date. -/
structure LsvRow where
  longSell : Option ℚ
  shortSell : Option ℚ
  longBuy : Option ℚ
  shortBuy : Option ℚ
  deriving DecidableEq

/-- The all-`NaN` row a hold date produces. -/
def lsvHoldRow : LsvRow := ⟨none, none, none, none⟩

/-- The body of the `for index in range(len(df))` loop of `__lsv_signals`:
given the `positions` state and one date's data, the updated state and the
signal row appended for that date (after the trailing NaN back-fill). -/
def lsvStep (pos : LsvPositions) (d : Day) : LsvPositions × LsvRow :=
  if negBasis (basisCell d.future d.spot) then
    if !pos.long_vix then
      if !pos.short_vix then
        ({ pos with long_vix := true }, ⟨none, none, some d.longOpen, none⟩)
      else
        (⟨true, false⟩, ⟨none, some d.shortOpen, some d.longOpen, none⟩)
    else
      (pos, lsvHoldRow)
  else
    if !pos.short_vix then
      if !pos.long_vix then
        ({ pos with short_vix := true }, ⟨none, none, none, some d.shortOpen⟩)
      else
        (⟨false, true⟩, ⟨some d.longOpen, none, none, some d.shortOpen⟩)
    else
      (pos, lsvHoldRow)

/-- The sequence of `positions` states after each date of the generation loop. -/
def lsvPosTrace (pos : LsvPositions) : List Day → List LsvPositions
  | [] => []
  | d :: ds =>
    let p := (lsvStep pos d).1
    p :: lsvPosTrace p ds

/-- The rows of the `__lsv_signals` output frame, one per date. -/
def lsvSignalRows (pos : LsvPositions) : List Day → List LsvRow
  | [] => []
  | d :: ds =>
    let r := lsvStep pos d
    r.2 :: lsvSignalRows r.1 ds

/-- Signal kinds of the Rotate-2 frame, in the dictionary key order of
`asset_signals` (sells first, long asset before short asset). -/
inductive LsvSig where
  | longSell
  | shortSell
  | longBuy
  | shortBuy
  deriving DecidableEq

/-- The `"sell" in signal` test on a Rotate-2 signal key. -/
def LsvSig.isSell : LsvSig → Bool
  | .longSell => true
  | .shortSell => true
  | .longBuy => false
  | .shortBuy => false

/-- `__extract_asset_name` applied to a Rotate-2 signal key. -/
def lsvSigName : LsvSig → AssetId
  | .longSell => .longVix
  | .longBuy => .longVix
  | .shortSell => .shortVix
  | .shortBuy => .shortVix

/-- The non-`NaN` entries of one signal row, in dictionary iteration order
(insertion order of `asset_signals`): this is the list the per-date loop of
`lsv_strategy` iterates over. -/
def lsvRowTrades (r : LsvRow) : List (LsvSig × ℚ) :=
  (match r.longSell with | some p => [(LsvSig.longSell, p)] | none => []) ++
  (match r.shortSell with | some p => [(LsvSig.shortSell, p)] | none => []) ++
  (match r.longBuy with | some p => [(LsvSig.longBuy, p)] | none => []) ++
  (match r.shortBuy with | some p => [(LsvSig.shortBuy, p)] | none => [])

/-- Ledger state of `lsv_strategy`: `max_holding`, `available_cash`,
`current_asset`. -/
structure LsvLedger where
  holding : ℚ
  cash : ℚ
  asset : Option AssetId
  deriving DecidableEq

/-- The lot-sizing formula `math.floor(cash / price * 100) / 100` shared by all
three strategies' buy branches. -/
def buyQuantity (cash price : ℚ) : ℚ := (⌊cash / price * 100⌋ : ℚ) / 100

/-- One iteration of the `for signal, open_price in execude_trades.items()`
loop of `lsv_strategy`: a sell credits `max_holding * open_price` (through the
`sale_proceeds` accumulator, which is `0.0` on entry and reset to `0.0` after)
and zeroes the holding; a buy sizes a lot from all available cash, debits it and
records the asset name.  Note the sell branch leaves `current_asset` untouched. -/
def lsvExecSignal (st : LsvLedger) (t : LsvSig × ℚ) : LsvLedger :=
  if t.1.isSell then
    { holding := 0, cash := st.cash + st.holding * t.2, asset := st.asset }
  else
    let q := buyQuantity st.cash t.2
    { holding := q, cash := st.cash - q * t.2, asset := some (lsvSigName t.1) }

/-- The per-date mutation of the `lsv_strategy` ledger: execute the date's
non-`NaN` signals in dictionary order; an empty row appends the previous
holding, cash and asset unchanged. -/
def lsvLedgerStep (st : LsvLedger) (r : LsvRow) : LsvLedger :=
  (lsvRowTrades r).foldl lsvExecSignal st

/-- The first-day trade of `lsv_strategy` (executed before the date loop): the
first non-`NaN` key of row 0 is bought with the whole initial capital; `none`
models the `IndexError` when row 0 has no signal. -/
def lsvBootstrap (capital : ℚ) (r : LsvRow) : Option LsvLedger :=
  match lsvRowTrades r with
  | [] => none
  | (sig, p) :: _ =>
    let q := buyQuantity capital p
    some { holding := q, cash := capital - q * p, asset := some (lsvSigName sig) }

/-- The `lsv_strategy` ledger states recorded for the dates after day 0, one
per row (`holdings_history` / `cash_history` / `asset_history` entries). -/
def lsvLedgerTrace (st : LsvLedger) : List LsvRow → List LsvLedger
  | [] => []
  | r :: rs =>
    let st2 := lsvLedgerStep st r
    st2 :: lsvLedgerTrace st2 rs

/-- `asset_value + available_cash` of a snapshot row: the close-price valuation
`portfolio_value` of one date. -/
def lsvValue (st : LsvLedger) (close : ℚ) : ℚ := close * st.holding + st.cash

/-- `pct_change` of the portfolio-value series: `cur / prev - 1`. -/
def dailyReturn (prev cur : ℚ) : ℚ := cur / prev - 1

/-- One date of input data for the Hedge-2x2 (`__hlsv_signals`) generator. -/
structure HlsvDay where
  future : Option ℚ
  spot : Option ℚ
  longOpen : ℚ
  shortOpen : ℚ
  hedgeOpen : ℚ
  deriving DecidableEq

/-- The `positions` dictionary of `__hlsv_signals`. -/
structure HlsvPositions where
  long_vix : Bool
  short_vix : Bool
  long_hedge : Bool
  short_hedge : Bool
  deriving DecidableEq

/-- Initial `positions` state of `__hlsv_signals` (all `False`). -/
def hlsvInit : HlsvPositions := ⟨false, false, false, false⟩

/-- One row of the `__hlsv_signals` output frame, fields in the dictionary key
order of `asset_signals` (the four sell columns, then the four buy columns). -/
structure HlsvRow where
  lvSell : Option ℚ
  svSell : Option ℚ
  lhSell : Option ℚ
  shSell : Option ℚ
  lvBuy : Option ℚ
  svBuy : Option ℚ
  lhBuy : Option ℚ
  shBuy : Option ℚ
  deriving DecidableEq

/-- The all-`NaN` row a Hedge-2x2 hold date produces. -/
def hlsvHoldRow : HlsvRow := ⟨none, none, none, none, none, none, none, none⟩

/-- The body of the date loop of `__hlsv_signals`: regime logic identical to
`__lsv_signals` but every asset action is paired with the matching hedge-leg
action (long hedge moves with the long-VIX asset, short hedge with the short). -/
def hlsvStep (pos : HlsvPositions) (d : HlsvDay) : HlsvPositions × HlsvRow :=
  if negBasis (basisCell d.future d.spot) then
    if !pos.long_vix && !pos.long_hedge then
      if !pos.short_vix && !pos.short_hedge then
        ({ pos with long_vix := true, long_hedge := true },
         ⟨none, none, none, none, some d.longOpen, none, some d.hedgeOpen, none⟩)
      else
        (⟨true, false, true, false⟩,
         ⟨none, some d.shortOpen, none, some d.hedgeOpen,
          some d.longOpen, none, some d.hedgeOpen, none⟩)
    else
      (pos, hlsvHoldRow)
  else
    if !pos.short_vix && !pos.short_hedge then
      if !pos.long_vix && !pos.long_hedge then
        ({ pos with short_vix := true, short_hedge := true },
         ⟨none, none, none, none, none, some d.shortOpen, none, some d.hedgeOpen⟩)
      else
        (⟨false, true, false, true⟩,
         ⟨some d.longOpen, none, some d.hedgeOpen, none,
          none, some d.shortOpen, none, some d.hedgeOpen⟩)
    else
      (pos, hlsvHoldRow)

/-- Signal kinds of the Hedge-2x2 frame, in `asset_signals` dictionary order. -/
inductive HlsvSig where
  | lvSell
  | svSell
  | lhSell
  | shSell
  | lvBuy
  | svBuy
  | lhBuy
  | shBuy
  deriving DecidableEq

/-- The `"sell" in key` split of `execude_trades` into `sell_trades`. -/
def HlsvSig.isSell : HlsvSig → Bool
  | .lvSell => true
  | .svSell => true
  | .lhSell => true
  | .shSell => true
  | _ => false

/-- The `long_vix_asset.lower() in signal or short_vix_asset.lower() in signal`
test of the sell loop (the signal names a tradable VIX asset, not the hedge). -/
def HlsvSig.isVix : HlsvSig → Bool
  | .lvSell => true
  | .svSell => true
  | .lvBuy => true
  | .svBuy => true
  | _ => false

/-- The `hedge_asset.lower() in signal` test of the buy loop. -/
def HlsvSig.isHedge : HlsvSig → Bool
  | .lhSell => true
  | .shSell => true
  | .lhBuy => true
  | .shBuy => true
  | _ => false

/-- The `"short" in signal` test inside the hedge-buy branch. -/
def HlsvSig.isShort : HlsvSig → Bool
  | .shSell => true
  | .shBuy => true
  | .svSell => false
  | .svBuy => false
  | _ => false

/-- `__extract_asset_name` applied to a Hedge-2x2 signal key. -/
def hlsvSigName : HlsvSig → AssetId
  | .lvSell => .longVix
  | .lvBuy => .longVix
  | .svSell => .shortVix
  | .svBuy => .shortVix
  | .lhSell => .longHedge
  | .lhBuy => .longHedge
  | .shSell => .shortHedge
  | .shBuy => .shortHedge

/-- The non-`NaN` entries of one Hedge-2x2 row in dictionary iteration order. -/
def hlsvRowTrades (r : HlsvRow) : List (HlsvSig × ℚ) :=
  (match r.lvSell with | some p => [(HlsvSig.lvSell, p)] | none => []) ++
  (match r.svSell with | some p => [(HlsvSig.svSell, p)] | none => []) ++
  (match r.lhSell with | some p => [(HlsvSig.lhSell, p)] | none => []) ++
  (match r.shSell with | some p => [(HlsvSig.shSell, p)] | none => []) ++
  (match r.lvBuy with | some p => [(HlsvSig.lvBuy, p)] | none => []) ++
  (match r.svBuy with | some p => [(HlsvSig.svBuy, p)] | none => []) ++
  (match r.lhBuy with | some p => [(HlsvSig.lhBuy, p)] | none => []) ++
  (match r.shBuy with | some p => [(HlsvSig.shBuy, p)] | none => [])

/-- Ledger state of `hlsv_strategy`: `asset_holding`, `hedge_holding`,
`available_cash`, `current_asset`, `current_hedge`. -/
structure HlsvLedger where
  assetHolding : ℚ
  hedgeHolding : ℚ
  cash : ℚ
  currentAsset : Option AssetId
  currentHedge : Option AssetId
  deriving DecidableEq

/-- The first-day trade of `hlsv_strategy` (lines before the date loop): the
capital is split 50/50 into `asset_cash` and `hedge_cash` (`hedge_allocation =
0.5`); the first non-`NaN` key of row 0 is bought from `asset_cash`, the second
from `hedge_cash` with the sign flipped (`math.floor(-hedge_cash / price *
100) / 100`, a short lot); `none` models the `IndexError` when row 0 has fewer
than two signals. -/
def hlsvBootstrap (capital : ℚ) (r : HlsvRow) : Option HlsvLedger :=
  match hlsvRowTrades r with
  | (k0, p0) :: (k1, p1) :: _ =>
    let assetCash := capital * (1 / 2)
    let hedgeCash := capital * (1 / 2)
    let aq := buyQuantity assetCash p0
    let assetCash2 := assetCash - aq * p0
    let hq := buyQuantity (-hedgeCash) p1
    let hedgeCash2 := hedgeCash - hq * p1
    some ⟨aq, hq, assetCash2 + hedgeCash2, some (hlsvSigName k0), some (hlsvSigName k1)⟩
  | _ => none

/-- One iteration of the `for signal, open_price in sell_trades.items()` loop
of `hlsv_strategy`: a VIX-asset sell credits `asset_holding * open_price`,
zeroes the asset holding and clears `current_asset`; a hedge sell does the same
on the hedge leg. -/
def hlsvExecSell (st : HlsvLedger) (t : HlsvSig × ℚ) : HlsvLedger :=
  if t.1.isVix then
    { st with cash := st.cash + st.assetHolding * t.2,
              assetHolding := 0, currentAsset := none }
  else
    { st with cash := st.cash + st.hedgeHolding * t.2,
              hedgeHolding := 0, currentHedge := none }

/-- One iteration of the buy loop of `hlsv_strategy`, threading the
`asset_cash` / `hedge_cash` buckets: a hedge buy sizes the lot from
`hedge_cash` (negated for a short hedge), a VIX-asset buy from `asset_cash`. -/
def hlsvExecBuy : ℚ × ℚ × HlsvLedger → HlsvSig × ℚ → ℚ × ℚ × HlsvLedger
  | (assetCash, hedgeCash, st), (sig, p) =>
    if sig.isHedge then
      if sig.isShort then
        let q := buyQuantity (-hedgeCash) p
        (assetCash, hedgeCash - q * p,
         { st with hedgeHolding := q, currentHedge := some (hlsvSigName sig) })
      else
        let q := buyQuantity hedgeCash p
        (assetCash, hedgeCash - q * p,
         { st with hedgeHolding := q, currentHedge := some (hlsvSigName sig) })
    else
      let q := buyQuantity assetCash p
      (assetCash - q * p, hedgeCash,
       { st with assetHolding := q, currentAsset := some (hlsvSigName sig) })

/-- The per-date mutation of the `hlsv_strategy` ledger: on a non-empty row,
sells run first, then `asset_cash = hedge_cash = available_cash * 0.5` is
recomputed and the buys run on those buckets, and finally `available_cash =
asset_cash + hedge_cash`; an empty row appends the previous state unchanged. -/
def hlsvLedgerStep (st : HlsvLedger) (r : HlsvRow) : HlsvLedger :=
  let trades := hlsvRowTrades r
  if trades.isEmpty then st
  else
    let st1 := (trades.filter fun t => t.1.isSell).foldl hlsvExecSell st
    let assetCash := st1.cash * (1 / 2)
    let res := (trades.filter fun t => !t.1.isSell).foldl hlsvExecBuy
      (assetCash, assetCash, st1)
    { res.2.2 with cash := res.1 + res.2.1 }

/-- The `hlsv_strategy` ledger states recorded for the dates after day 0. -/
def hlsvLedgerTrace (st : HlsvLedger) : List HlsvRow → List HlsvLedger
  | [] => []
  | r :: rs =>
    let st2 := hlsvLedgerStep st r
    st2 :: hlsvLedgerTrace st2 rs

/-- Signal kinds of the Partial-Rotate (`__lslv_signals`) frame, in
`asset_signals` dictionary order. -/
inductive LslvSig where
  | vol25Sell
  | hedge75Sell
  | vol25Buy
  | hedge100Buy
  deriving DecidableEq

/-- `__extract_asset_name` applied to a Partial-Rotate signal key (the regex
leaves the `_25` / `_75` / `_100` tag on the name). -/
def lslvSigName : LslvSig → AssetId
  | .vol25Sell => .longVix25
  | .vol25Buy => .longVix25
  | .hedge75Sell => .hedge75
  | .hedge100Buy => .hedge100

/-- Ledger state of `lslv_strategy`: `asset_holding`, `hedge_holding`,
`available_cash`, `current_asset`, `current_hedge`. -/
structure LslvLedger where
  assetHolding : ℚ
  hedgeHolding : ℚ
  cash : ℚ
  currentAsset : Option AssetId
  currentHedge : Option AssetId
  deriving DecidableEq

/-- One iteration of the `for signal, open_price in execude_trades.items()`
loop of `lslv_strategy`:
* `Sell(Hedge-75)` (`"{hedge}_75" in signal`): credits
  `(hedge_holding * 0.25) * open_price` and reduces the hedge holding by
  `hedge_holding * 0.25` — a partial exit;
* `Sell(Vol-25)` (the other sell): credits `asset_holding * open_price`,
  zeroes the asset holding and clears `current_asset` — a full exit;
* `Buy(Vol-25)`: lot from all available cash into the asset holding;
* `Buy(Hedge-100)`: lot from all available cash added onto the hedge holding. -/
def lslvExecSignal (st : LslvLedger) (t : LslvSig × ℚ) : LslvLedger :=
  match t.1 with
  | .hedge75Sell =>
    { st with cash := st.cash + st.hedgeHolding * (1 / 4) * t.2,
              hedgeHolding := st.hedgeHolding - st.hedgeHolding * (1 / 4),
              currentHedge := some AssetId.hedge75 }
  | .vol25Sell =>
    { st with cash := st.cash + st.assetHolding * t.2,
              assetHolding := 0, currentAsset := none }
  | .vol25Buy =>
    let q := buyQuantity st.cash t.2
    { st with assetHolding := q, cash := st.cash - q * t.2,
              currentAsset := some AssetId.longVix25 }
  | .hedge100Buy =>
    let q := buyQuantity st.cash t.2
    { st with hedgeHolding := st.hedgeHolding + q, cash := st.cash - q * t.2,
              currentHedge := some AssetId.hedge100 }

/-- `annualised_downside_vol`'s sum of squares: only returns strictly below the
minimum acceptable return `mar` pass the `tmp[tmp < mar]` filter, and each
contributes its square. -/
def downside_sq_sum (rs : List ℚ) (mar : ℚ) : ℚ :=
  ((rs.filter fun x => decide (x < mar)).map fun x => x ^ 2).sum

/-- `annualised_downside_vol` of `PerformanceMetrics`:
`sqrt(sum_of_squares / len(tmp)) * sqrt(252)`, the divisor being the length of
the whole return series, not of the filtered one. -/
noncomputable def annualised_downside_vol (rs : List ℚ) (mar : ℚ) : ℝ :=
  Real.sqrt ((downside_sq_sum rs mar : ℝ) / (rs.length : ℝ)) * Real.sqrt 252

/-! ### Helper lemmas -/

theorem buyQuantity_mul_le (c p : ℚ) (hp : 0 < p) : buyQuantity c p * p ≤ c := by
  unfold buyQuantity
  have h1 : (⌊c / p * 100⌋ : ℚ) ≤ c / p * 100 := Int.floor_le _
  have h2 : (⌊c / p * 100⌋ : ℚ) / 100 ≤ c / p := by linarith
  calc (⌊c / p * 100⌋ : ℚ) / 100 * p ≤ c / p * p :=
        mul_le_mul_of_nonneg_right h2 hp.le
    _ = c := div_mul_cancel₀ c hp.ne'

theorem lsvStep_mutex (pos : LsvPositions) (d : Day)
    (h : ¬(pos.long_vix = true ∧ pos.short_vix = true)) :
    ¬(((lsvStep pos d).1).long_vix = true ∧ ((lsvStep pos d).1).short_vix = true) := by
  obtain ⟨lv, sv⟩ := pos
  cases lv <;> cases sv <;>
    cases hb : negBasis (basisCell d.future d.spot) <;>
      simp_all [lsvStep]

theorem lsvPosTrace_mutex (ds : List Day) (pos : LsvPositions)
    (h : ¬(pos.long_vix = true ∧ pos.short_vix = true)) :
    ∀ p ∈ lsvPosTrace pos ds, ¬(p.long_vix = true ∧ p.short_vix = true) := by
  induction ds generalizing pos with
  | nil => intro p hp; simp [lsvPosTrace] at hp
  | cons d ds ih =>
    intro p hp
    simp only [lsvPosTrace, List.mem_cons] at hp
    rcases hp with rfl | hp
    · exact lsvStep_mutex pos d h
    · exact ih _ (lsvStep_mutex pos d h) p hp

theorem lsvLedgerTrace_length (rows : List LsvRow) :
    ∀ st, (lsvLedgerTrace st rows).length = rows.length := by
  induction rows with
  | nil => intro st; rfl
  | cons r rs ih => intro st; simp [lsvLedgerTrace, ih]

theorem hlsvLedgerTrace_length (rows : List HlsvRow) :
    ∀ st, (hlsvLedgerTrace st rows).length = rows.length := by
  induction rows with
  | nil => intro st; rfl
  | cons r rs ih => intro st; simp [hlsvLedgerTrace, ih]

/-! ### Claim theorems -/

/-- C3: in the Rotate-2 signal generator (`__lsv_signals`), after processing
each date the position flags for the long-vol slot and the short-vol slot are
never both `True`: every state in the trace of the generation loop, started
from the all-`False` initial `positions`, keeps at most one slot open. -/
theorem c3_rotate2_mutual_exclusion (ds : List Day) (p : LsvPositions)
    (hp : p ∈ lsvPosTrace lsvInit ds) :
    ¬(p.long_vix = true ∧ p.short_vix = true) :=
  lsvPosTrace_mutex ds lsvInit (by simp [lsvInit]) p hp

/-- Witness for C3: a one-date backwardation run opens the long slot only. -/
theorem c3_rotate2_mutual_exclusion_witness :
    (⟨true, false⟩ : LsvPositions) ∈ lsvPosTrace lsvInit [⟨some 1, some 2, 5, 7⟩]
    ∧ ¬((⟨true, false⟩ : LsvPositions).long_vix = true
        ∧ (⟨true, false⟩ : LsvPositions).short_vix = true) :=
  ⟨by norm_num [lsvPosTrace, lsvStep, lsvInit, basisCell, negBasis, dailyBasis],
   c3_rotate2_mutual_exclusion [⟨some 1, some 2, 5, 7⟩] ⟨true, false⟩
     (by norm_num [lsvPosTrace, lsvStep, lsvInit, basisCell, negBasis, dailyBasis])⟩

/-- C1: in the Rotate-2 signal generator, on a negative-basis date: if the
long-vol slot is closed and the short-vol slot is open, the row holds exactly a
Sell of the short asset at its open price and a Buy of the long asset at its
open price; if both are closed, only the Buy of the long asset; if the long
slot is already open, the row is all-`NaN` (hold).  The Contango case is
symmetric with the short-vol slot in place of the long-vol slot. -/
theorem c1_rotate2_row_events (pos : LsvPositions) (d : Day) :
    (negBasis (basisCell d.future d.spot) = true →
      ((pos.long_vix = false ∧ pos.short_vix = true →
          (lsvStep pos d).2 = ⟨none, some d.shortOpen, some d.longOpen, none⟩)
        ∧ (pos.long_vix = false ∧ pos.short_vix = false →
          (lsvStep pos d).2 = ⟨none, none, some d.longOpen, none⟩)
        ∧ (pos.long_vix = true → (lsvStep pos d).2 = lsvHoldRow)))
    ∧ (negBasis (basisCell d.future d.spot) = false →
      ((pos.short_vix = false ∧ pos.long_vix = true →
          (lsvStep pos d).2 = ⟨some d.longOpen, none, none, some d.shortOpen⟩)
        ∧ (pos.short_vix = false ∧ pos.long_vix = false →
          (lsvStep pos d).2 = ⟨none, none, none, some d.shortOpen⟩)
        ∧ (pos.short_vix = true → (lsvStep pos d).2 = lsvHoldRow))) := by
  obtain ⟨lv, sv⟩ := pos
  cases lv <;> cases sv <;>
    cases hb : negBasis (basisCell d.future d.spot) <;>
      simp_all [lsvStep]

/-- Witness for C1: a flip on a backwardation date with the short slot open. -/
theorem c1_rotate2_row_events_witness :
    (lsvStep ⟨false, true⟩ ⟨some 1, some 2, 5, 7⟩).2 = ⟨none, some 7, some 5, none⟩ :=
  ((c1_rotate2_row_events ⟨false, true⟩ ⟨some 1, some 2, 5, 7⟩).1
      (by norm_num [basisCell, negBasis, dailyBasis])).1 ⟨rfl, rfl⟩

/-- C6: the regime classifier computes `basis(t) = future(t) / spot(t) - 1` for
every date with defined prices, labels the date Backwardation (`true`) exactly
when `basis(t) < 0` and Contango (`false`) otherwise, and the label at `t`
depends only on date `t`'s two prices: any other date range agreeing with this
one at position `t` yields the same label there. -/
theorem c6_regime_pointwise (ds ds2 : List Day) (t : ℕ) (d d2 : Day) (f s : ℚ)
    (hd : ds[t]? = some d) (hf : d.future = some f) (hs : d.spot = some s)
    (hd2 : ds2[t]? = some d2) (hf2 : d2.future = d.future)
    (hs2 : d2.spot = d.spot) :
    (basisCol ds)[t]? = some (some (f / s - 1))
    ∧ (regimeCol ds)[t]? = some (decide (f / s - 1 < 0))
    ∧ (regimeCol ds2)[t]? = (regimeCol ds)[t]? := by
  refine ⟨?_, ?_, ?_⟩
  · simp [basisCol, List.getElem?_map, hd, hf, hs, basisCell, dailyBasis]
  · simp [regimeCol, basisCol, List.getElem?_map, hd, hf, hs, basisCell,
      dailyBasis, negBasis]
  · simp [regimeCol, basisCol, List.getElem?_map, hd, hd2, hf2, hs2]

/-- Witness for C6: a two-date range and a one-date range agreeing at date 0. -/
theorem c6_regime_pointwise_witness :
    (basisCol [⟨some 1, some 2, 5, 7⟩, ⟨some 3, some 2, 5, 7⟩])[0]?
      = some (some ((1 : ℚ) / 2 - 1))
    ∧ (regimeCol [⟨some 1, some 2, 5, 7⟩, ⟨some 3, some 2, 5, 7⟩])[0]?
      = some (decide ((1 : ℚ) / 2 - 1 < 0))
    ∧ (regimeCol [⟨some 1, some 2, 9, 9⟩])[0]?
      = (regimeCol [⟨some 1, some 2, 5, 7⟩, ⟨some 3, some 2, 5, 7⟩])[0]? :=
  c6_regime_pointwise [⟨some 1, some 2, 5, 7⟩, ⟨some 3, some 2, 5, 7⟩]
    [⟨some 1, some 2, 9, 9⟩] 0 ⟨some 1, some 2, 5, 7⟩ ⟨some 1, some 2, 9, 9⟩ 1 2
    rfl rfl rfl rfl rfl rfl

/-- C9 counterexample: on a date whose future-like price is undefined (`NaN`),
the code raises nothing — the basis cell is `NaN`, the test `basis < 0` is
`False`, so the date is labelled Contango (`false`) and the Rotate-2 generator
acts on that label (from the initial state it emits a short-asset buy), instead
of failing with a `MissingDataError` and assigning no regime. -/
theorem c9_counterexample :
    regimeCol [⟨none, some 1, 2, 3⟩] = [false]
    ∧ lsvStep lsvInit ⟨none, some 1, 2, 3⟩
      = (⟨false, true⟩, ⟨none, none, none, some 3⟩) := by
  constructor
  · rfl
  · rfl

/-- C9 (amended): a date with an undefined future-like or spot-like price gets
an undefined (`NaN`) basis, the `basis < 0` test comes out `False`, and the
signal generator processes the date exactly as a Contango date (no error is
raised, and no separate missing-data handling exists). -/
theorem c9_undefined_price_is_contango (d : Day) (pos : LsvPositions)
    (h : d.future = none ∨ d.spot = none) :
    basisCell d.future d.spot = none
    ∧ negBasis (basisCell d.future d.spot) = false
    ∧ lsvStep pos d = lsvStep pos ⟨some 2, some 1, d.longOpen, d.shortOpen⟩ := by
  obtain ⟨df, dsp, dlo, dsho⟩ := d
  have hcell : basisCell df dsp = none := by
    rcases h with h | h
    · subst h; cases dsp <;> rfl
    · subst h; cases df <;> rfl
  refine ⟨hcell, by rw [hcell]; rfl, ?_⟩
  have h2 : negBasis (basisCell (some 2) (some 1)) = false := by
    norm_num [negBasis, basisCell, dailyBasis]
  simp only [lsvStep, hcell, h2]
  rfl

/-- Witness for C9 (amended): a date with an undefined spot price. -/
theorem c9_undefined_price_is_contango_witness :
    basisCell (some 4) none = none
    ∧ negBasis (basisCell (some 4) none) = false
    ∧ lsvStep lsvInit ⟨some 4, none, 2, 3⟩ = lsvStep lsvInit ⟨some 2, some 1, 2, 3⟩ :=
  c9_undefined_price_is_contango ⟨some 4, none, 2, 3⟩ lsvInit (Or.inr rfl)

/-- C2: every Buy executed by the Rotate-2 ledger — both a buy signal inside
the date loop and the first-day bootstrap trade — purchases exactly
`floor(allocatedCash / referencePrice * 100) / 100` units, and the cash
balance left after debiting `quantity * referencePrice` is never negative,
for every positive cash balance and positive reference price. -/
theorem c2_buy_lot_and_cash (st : LsvLedger) (sig sig0 : LsvSig)
    (p capital p0 : ℚ) (r : LsvRow) (rest : List (LsvSig × ℚ))
    (hsig : sig.isSell = false) (hcash : 0 < st.cash) (hp : 0 < p)
    (hcap : 0 < capital) (hp0 : 0 < p0)
    (hr : lsvRowTrades r = (sig0, p0) :: rest) :
    (lsvExecSignal st (sig, p)).holding = (⌊st.cash / p * 100⌋ : ℚ) / 100
    ∧ 0 ≤ (lsvExecSignal st (sig, p)).cash
    ∧ lsvBootstrap capital r
        = some ⟨buyQuantity capital p0, capital - buyQuantity capital p0 * p0,
                some (lsvSigName sig0)⟩
    ∧ 0 ≤ capital - buyQuantity capital p0 * p0 := by
  refine ⟨?_, ?_, ?_, ?_⟩
  · simp [lsvExecSignal, hsig, buyQuantity]
  · simp only [lsvExecSignal, hsig, Bool.false_eq_true, if_false]
    have := buyQuantity_mul_le st.cash p hp
    simp only [sub_nonneg]
    exact this
  · simp [lsvBootstrap, hr]
  · have := buyQuantity_mul_le capital p0 hp0
    linarith

/-- Witness for C2: a buy of a 3-priced asset with 100 of cash, and a bootstrap
row whose first signal is a long buy at price 2 with capital 50. -/
theorem c2_buy_lot_and_cash_witness :
    (lsvExecSignal ⟨0, 100, none⟩ (LsvSig.longBuy, 3)).holding
      = (⌊(100 : ℚ) / 3 * 100⌋ : ℚ) / 100
    ∧ 0 ≤ (lsvExecSignal ⟨0, 100, none⟩ (LsvSig.longBuy, 3)).cash
    ∧ lsvBootstrap 50 ⟨none, none, some 2, none⟩
        = some ⟨buyQuantity 50 2, 50 - buyQuantity 50 2 * 2,
                some (lsvSigName LsvSig.longBuy)⟩
    ∧ 0 ≤ 50 - buyQuantity 50 2 * 2 :=
  c2_buy_lot_and_cash ⟨0, 100, none⟩ LsvSig.longBuy LsvSig.longBuy 3 50 2
    ⟨none, none, some 2, none⟩ [] rfl (by norm_num) (by norm_num) (by norm_num)
    (by norm_num) rfl

/-- C7 counterexample: a Sell executed by the `lsv_strategy` ledger credits the
proceeds and zeroes the holding, but it does not clear `current_asset`: from a
state holding 2 units of the short asset with 10 of cash, selling at price 5
leaves the active-asset identity set.  The conjunction stated by the claim
(proceeds credited, holding zeroed, identity cleared) is therefore false. -/
theorem c7_counterexample :
    ¬((lsvExecSignal ⟨2, 10, some AssetId.shortVix⟩ (LsvSig.shortSell, 5)).cash
        = 10 + 2 * 5
      ∧ (lsvExecSignal ⟨2, 10, some AssetId.shortVix⟩ (LsvSig.shortSell, 5)).holding = 0
      ∧ (lsvExecSignal ⟨2, 10, some AssetId.shortVix⟩ (LsvSig.shortSell, 5)).asset
        = none) := by
  intro h
  exact Option.noConfusion h.2.2

/-- C7 (amended): a Sell executed by the Rotate-2 ledger credits cash with
`holdingQuantity * referencePrice` and zeroes the holding, but leaves the
active-asset identity unchanged (it is only overwritten by a Buy executed later
on the same date); in the Hedge-2x2 ledger a Sell of either leg does
additionally clear that leg's active-asset identity. -/
theorem c7_sell_semantics (st : LsvLedger) (hst : HlsvLedger) (p : ℚ) :
    lsvExecSignal st (LsvSig.longSell, p) = ⟨0, st.cash + st.holding * p, st.asset⟩
    ∧ lsvExecSignal st (LsvSig.shortSell, p) = ⟨0, st.cash + st.holding * p, st.asset⟩
    ∧ hlsvExecSell hst (HlsvSig.lvSell, p)
      = { hst with cash := hst.cash + hst.assetHolding * p,
                   assetHolding := 0, currentAsset := none }
    ∧ hlsvExecSell hst (HlsvSig.svSell, p)
      = { hst with cash := hst.cash + hst.assetHolding * p,
                   assetHolding := 0, currentAsset := none }
    ∧ hlsvExecSell hst (HlsvSig.lhSell, p)
      = { hst with cash := hst.cash + hst.hedgeHolding * p,
                   hedgeHolding := 0, currentHedge := none }
    ∧ hlsvExecSell hst (HlsvSig.shSell, p)
      = { hst with cash := hst.cash + hst.hedgeHolding * p,
                   hedgeHolding := 0, currentHedge := none } :=
  ⟨rfl, rfl, rfl, rfl, rfl, rfl⟩

/-- C4: in the Partial-Rotate ledger (`lslv_strategy`), a Sell(Hedge-75) with
pre-trade hedge holding `h > 0` credits cash by `(h * 0.25) * referencePrice`
and leaves the hedge holding at exactly `0.75 * h` — a reduction by exactly 25%
of the pre-trade quantity, never to zero — while Sell(Vol-25) zeroes the asset
holding entirely and credits its full proceeds (full exit). -/
theorem c4_partial_rotate_sell (st : LslvLedger) (p : ℚ)
    (h : 0 < st.hedgeHolding) :
    (lslvExecSignal st (LslvSig.hedge75Sell, p)).cash
      = st.cash + st.hedgeHolding * (1 / 4) * p
    ∧ (lslvExecSignal st (LslvSig.hedge75Sell, p)).hedgeHolding
      = (3 / 4) * st.hedgeHolding
    ∧ (lslvExecSignal st (LslvSig.hedge75Sell, p)).hedgeHolding ≠ 0
    ∧ (lslvExecSignal st (LslvSig.vol25Sell, p)).assetHolding = 0
    ∧ (lslvExecSignal st (LslvSig.vol25Sell, p)).cash
      = st.cash + st.assetHolding * p := by
  have h34 : st.hedgeHolding - st.hedgeHolding * (1 / 4) = (3 / 4) * st.hedgeHolding := by
    ring
  refine ⟨rfl, ?_, ?_, rfl, rfl⟩
  · simp only [lslvExecSignal]
    exact h34
  · simp only [lslvExecSignal]
    rw [h34]
    positivity

/-- Witness for C4: hedge holding 4, asset holding 1, cash 10, sell price 2. -/
theorem c4_partial_rotate_sell_witness :
    (lslvExecSignal ⟨1, 4, 10, none, none⟩ (LslvSig.hedge75Sell, 2)).cash
      = 10 + 4 * (1 / 4) * 2
    ∧ (lslvExecSignal ⟨1, 4, 10, none, none⟩ (LslvSig.hedge75Sell, 2)).hedgeHolding
      = (3 / 4) * 4
    ∧ (lslvExecSignal ⟨1, 4, 10, none, none⟩ (LslvSig.hedge75Sell, 2)).hedgeHolding ≠ 0
    ∧ (lslvExecSignal ⟨1, 4, 10, none, none⟩ (LslvSig.vol25Sell, 2)).assetHolding = 0
    ∧ (lslvExecSignal ⟨1, 4, 10, none, none⟩ (LslvSig.vol25Sell, 2)).cash
      = 10 + 1 * 2 :=
  c4_partial_rotate_sell ⟨1, 4, 10, none, none⟩ 2 (by norm_num)

/-- C5: on the Hedge-2x2 bootstrap date (day 0, started from the all-`False`
signal state) with initial capital 10,000, the ledger splits the capital 50/50
and opens two lots: the main-asset lot is priced off the main asset's open
price (the long asset under Backwardation, the short asset under Contango) and
sized from exactly 5,000 of allocable cash, and the hedge lot is priced off the
hedge asset's open price and sized from exactly 5,000 of allocable cash (with
the sign flipped: `floor(-5000 / price * 100) / 100`, the code's short-lot
convention); the remaining cash is the sum of the two 5,000 buckets after each
debit. -/
theorem c5_hedge2x2_bootstrap (d : HlsvDay) :
    (negBasis (basisCell d.future d.spot) = true →
      hlsvBootstrap 10000 (hlsvStep hlsvInit d).2
        = some ⟨buyQuantity 5000 d.longOpen, buyQuantity (-5000) d.hedgeOpen,
                (5000 - buyQuantity 5000 d.longOpen * d.longOpen)
                  + (5000 - buyQuantity (-5000) d.hedgeOpen * d.hedgeOpen),
                some AssetId.longVix, some AssetId.longHedge⟩)
    ∧ (negBasis (basisCell d.future d.spot) = false →
      hlsvBootstrap 10000 (hlsvStep hlsvInit d).2
        = some ⟨buyQuantity 5000 d.shortOpen, buyQuantity (-5000) d.hedgeOpen,
                (5000 - buyQuantity 5000 d.shortOpen * d.shortOpen)
                  + (5000 - buyQuantity (-5000) d.hedgeOpen * d.hedgeOpen),
                some AssetId.shortVix, some AssetId.shortHedge⟩) := by
  have hhalf : (10000 : ℚ) * (1 / 2) = 5000 := by norm_num
  constructor
  · intro hb
    simp [hlsvStep, hb, hlsvInit, hlsvBootstrap, hlsvRowTrades, hlsvSigName, hhalf]
    norm_num
  · intro hb
    simp [hlsvStep, hb, hlsvInit, hlsvBootstrap, hlsvRowTrades, hlsvSigName, hhalf]
    norm_num

/-- Witness for C5: a Backwardation day 0 (basis `1/2 - 1 < 0`) with main open
price 20 and hedge open price 10. -/
theorem c5_hedge2x2_bootstrap_witness :
    hlsvBootstrap 10000 (hlsvStep hlsvInit ⟨some 1, some 2, 20, 30, 10⟩).2
      = some ⟨buyQuantity 5000 20, buyQuantity (-5000) 10,
              (5000 - buyQuantity 5000 20 * 20) + (5000 - buyQuantity (-5000) 10 * 10),
              some AssetId.longVix, some AssetId.longHedge⟩ :=
  (c5_hedge2x2_bootstrap ⟨some 1, some 2, 20, 30, 10⟩).1
    (by norm_num [negBasis, basisCell, dailyBasis])

/-- C8: a date with no signal events (an all-`NaN` row) leaves the ledger state
— holdings, cash balance and active-asset identity — completely unchanged, in
both the Rotate-2 and the Hedge-2x2 ledgers; the run still records exactly one
snapshot per date, and the hold date's daily return is the well-defined
`pct_change` of the unchanged position valued at the two dates' close prices. -/
theorem c8_hold_frame (st : LsvLedger) (hst : HlsvLedger) (r : LsvRow)
    (hr : HlsvRow) (rows : List LsvRow) (hrows : List HlsvRow) (cPrev cCur : ℚ)
    (h1 : r = lsvHoldRow) (h2 : hr = hlsvHoldRow) :
    lsvLedgerStep st r = st
    ∧ hlsvLedgerStep hst hr = hst
    ∧ (lsvLedgerTrace st rows).length = rows.length
    ∧ (hlsvLedgerTrace hst hrows).length = hrows.length
    ∧ dailyReturn (lsvValue st cPrev) (lsvValue (lsvLedgerStep st r) cCur)
      = (cCur * st.holding + st.cash) / (cPrev * st.holding + st.cash) - 1 := by
  subst h1 h2
  have hstep : lsvLedgerStep st lsvHoldRow = st := rfl
  refine ⟨hstep, rfl, lsvLedgerTrace_length rows st, hlsvLedgerTrace_length hrows hst, ?_⟩
  rw [hstep]
  rfl

/-- Witness for C8: a concrete hold date for each ledger. -/
theorem c8_hold_frame_witness :
    lsvLedgerStep ⟨2, 10, some AssetId.longVix⟩ lsvHoldRow = ⟨2, 10, some AssetId.longVix⟩
    ∧ hlsvLedgerStep ⟨1, -1, 5, some AssetId.longVix, some AssetId.longHedge⟩ hlsvHoldRow
      = ⟨1, -1, 5, some AssetId.longVix, some AssetId.longHedge⟩
    ∧ (lsvLedgerTrace ⟨2, 10, some AssetId.longVix⟩ [lsvHoldRow, lsvHoldRow]).length = 2
    ∧ (hlsvLedgerTrace ⟨1, -1, 5, some AssetId.longVix, some AssetId.longHedge⟩
        [hlsvHoldRow]).length = 1
    ∧ dailyReturn (lsvValue ⟨2, 10, some AssetId.longVix⟩ 3)
        (lsvValue (lsvLedgerStep ⟨2, 10, some AssetId.longVix⟩ lsvHoldRow) 4)
      = (4 * 2 + 10) / (3 * 2 + 10) - 1 :=
  c8_hold_frame ⟨2, 10, some AssetId.longVix⟩
    ⟨1, -1, 5, some AssetId.longVix, some AssetId.longHedge⟩ lsvHoldRow hlsvHoldRow
    [lsvHoldRow, lsvHoldRow] [hlsvHoldRow] 3 4 rfl rfl

/-- C10: in `annualised_downside_vol`, only returns strictly below the
minimum-acceptable-return threshold contribute to the sum of squares — adding a
return at or above `mar` leaves the sum unchanged while still enlarging the
divisor, which is the length of the whole return series, not the count of
below-threshold returns — and the metric is the square root of that quotient
times the square root of 252. -/
theorem c10_downside_vol_structure (rs : List ℚ) (mar x : ℚ) :
    annualised_downside_vol rs mar
      = Real.sqrt ((downside_sq_sum rs mar : ℝ) / (rs.length : ℝ)) * Real.sqrt 252
    ∧ (mar ≤ x →
        downside_sq_sum (x :: rs) mar = downside_sq_sum rs mar
        ∧ annualised_downside_vol (x :: rs) mar
          = Real.sqrt ((downside_sq_sum rs mar : ℝ) / ((rs.length : ℝ) + 1))
              * Real.sqrt 252)
    ∧ (x < mar →
        downside_sq_sum (x :: rs) mar = x ^ 2 + downside_sq_sum rs mar) := by
  refine ⟨rfl, fun hx => ?_, fun hx => ?_⟩
  · have hsum : downside_sq_sum (x :: rs) mar = downside_sq_sum rs mar := by
      simp [downside_sq_sum, List.filter_cons, not_lt.mpr hx]
    refine ⟨hsum, ?_⟩
    simp only [annualised_downside_vol, hsum, List.length_cons]
    push_cast
    ring_nf
  · simp [downside_sq_sum, List.filter_cons, hx]

/-- Witness for C10: series `[1, -1]` with threshold 0 and the extra return 2. -/
theorem c10_downside_vol_structure_witness :
    annualised_downside_vol [1, -1] 0
      = Real.sqrt ((downside_sq_sum [1, -1] 0 : ℝ) / (([1, -1] : List ℚ).length : ℝ))
          * Real.sqrt 252
    ∧ (downside_sq_sum [2, 1, -1] 0 = downside_sq_sum [1, -1] 0
        ∧ annualised_downside_vol [2, 1, -1] 0
          = Real.sqrt ((downside_sq_sum [1, -1] 0 : ℝ) / ((([1, -1] : List ℚ).length : ℝ) + 1))
              * Real.sqrt 252) :=
  ⟨(c10_downside_vol_structure [1, -1] 0 2).1,
   (c10_downside_vol_structure [1, -1] 0 2).2.1 (by norm_num)⟩
